import Mathlib

/-!
Verification of the FT8756 touchscreen driver's register-access transport
and touch-report decoder (drivers/input/touchscreen/ft8756.c).

The development shallowly embeds the C functions as executable Lean
functions over `Nat` byte values and `List Nat` buffers:
  * the CRC-16 accumulator loop of `ft8756_spi_read` (lines 196-200),
  * the outbound frame construction of `ft8756_spi_write` (lines 109-118)
    and `ft8756_spi_read` (lines 167-174),
  * the bounded retry loops of both transport functions (lines 130-147
    and 186-217), with the SPI bus abstracted as a list of per-attempt
    outcomes (either a `spi_sync` error code or a received buffer),
  * the chip-identity probe `ft8756_check_chip_id` (lines 245-280), with
    the regmap abstracted as a pair of read/write oracles and the
    sequence of transport operations recorded as a trace,
  * the touch-report decoder `ft8756_report` (lines 340-406), with the
    input-event sink abstracted as the returned list of contact samples
    plus a frame-sync flag.
-/

namespace FT8756

/-! ## Constants (ft8756.c lines 29-45, 66) -/

def FT8756_MAX_RETRIES : Nat := 3

def DATA_CRC_EN : Nat := 0x20

def WRITE_CMD : Nat := 0x00

def READ_CMD : Nat := 0x80 ||| DATA_CRC_EN

def TOUCH_MAX_FINGER_NUM : Nat := 10

def TOUCH_MAX_PRESSURE : Nat := 255

def POINT_DATA_LEN : Nat := 62

def FT8756_CMD_START1 : Nat := 0x55

def FT8756_CMD_START2 : Nat := 0xAA

def FT8756_CMD_READ_ID : Nat := 0x90

/-! ## CRC-16 (ft8756.c lines 196-200)

`crc` is a `u16`; all values stay below `2 ^ 16` because each round
either halves the accumulator or halves it and xors with `0x8408`. -/

/-- One bit round: `crc = crc & 1 ? (crc >> 1) ^ 0x8408 : crc >> 1`
(ft8756.c line 199). -/
def crcRound (crc : Nat) : Nat :=
  if crc % 2 = 1 then (crc / 2) ^^^ 0x8408 else crc / 2

/-- The inner `for (k = 0; k < 8; k++)` loop of ft8756.c lines 198-199. -/
def crcRounds : Nat → Nat → Nat
  | 0, crc => crc
  | k + 1, crc => crcRounds k (crcRound crc)

/-- One byte of the CRC loop: `crc ^= rxBuf[dp + j]` followed by 8 bit
rounds (ft8756.c lines 197-199). -/
def crcByte (crc b : Nat) : Nat := crcRounds 8 (crc ^^^ b)

/-- The outer `for (j = 0; ...)` loop of ft8756.c lines 196-200, folded
over the payload bytes. -/
def crcBytes (crc : Nat) (bs : List Nat) : Nat := bs.foldl crcByte crc

/-! ## SPI bus abstraction

One `spi_sync` call either fails with a nonzero error code (the driver
then ignores the receive buffer) or succeeds and yields the received
buffer `rxBuf`.  A transport call consumes a list of such per-attempt
outcomes, one per loop iteration. -/

inductive AttemptResult where
  | busErr (code : Int)
  | resp (rx : List Nat)
deriving DecidableEq

/-! ## Write path (`ft8756_spi_write`, ft8756.c lines 96-148) -/

/-- Outbound write frame (ft8756.c lines 100, 109-118).  `datalen` is the
`u32` value `len - 1`; the three dummy bytes are zero because `txBuf`
is allocated with `devm_kzalloc`. -/
def ft8756_spi_write_txBuf (data : List Nat) : List Nat :=
  let datalen := (data.length + 0xFFFFFFFF) % 0x100000000
  [data.getD 0 0, WRITE_CMD, (datalen >>> 8) &&& 0xFF, datalen &&& 0xFF] ++
    (if 0 < datalen then [0, 0, 0] ++ data.drop 1 else [])

/-- The retry loop of ft8756.c lines 130-144.  The second argument is the
current value of `ret`; a `spi_sync` failure stores its code in `ret`
and retries, a clear status byte (`(rxBuf[3] & 0xA0) == 0`) breaks with
`ret = 0` (the successful `spi_sync` return), a set status byte stores
`-EIO` (= -5) and retries. -/
def ft8756_write_loop : List AttemptResult → Int → Int
  | [], ret => ret
  | a :: rest, _ret =>
    match a with
    | .busErr e => ft8756_write_loop rest e
    | .resp rx =>
      if rx.getD 3 0 &&& 0xA0 = 0 then 0 else ft8756_write_loop rest (-5)

/-- Return value of `ft8756_spi_write`: the loop runs for up to
`FT8756_MAX_RETRIES` (3) attempts. -/
def ft8756_spi_write_ret (attempts : List AttemptResult) : Int :=
  ft8756_write_loop (attempts.take FT8756_MAX_RETRIES) 0

/-! ## Read path (`ft8756_spi_read`, ft8756.c lines 153-218) -/

/-- Outbound read frame header (ft8756.c lines 167-170). -/
def ft8756_read_txBuf (reg val_size : Nat) : List Nat :=
  [reg, READ_CMD, (val_size >>> 8) &&& 0xFF, val_size &&& 0xFF]

/-- Exchange length (ft8756.c lines 171-174): `dp = 4 + 3`,
`txlen = dp + val_size`, plus 2 CRC bytes when `txBuf[1] & DATA_CRC_EN`
is set (`txBuf[1]` is always `READ_CMD`). -/
def ft8756_read_txlen (val_size : Nat) : Nat :=
  if READ_CMD &&& DATA_CRC_EN ≠ 0 then 4 + 3 + val_size + 2 else 4 + 3 + val_size

/-- The `val_size` payload bytes starting at offset `dp = 7` of the
receive buffer (`memcpy(val_buf, &rxBuf[dp], val_size)`, ft8756.c
line 194; `rxBuf` is zero-initialized by `devm_kzalloc`, hence the 0
default). -/
def read_payload (val_size : Nat) (rx : List Nat) : List Nat :=
  (List.range val_size).map fun j => rx.getD (7 + j) 0

/-- Outcome of one iteration of the read retry loop: either the loop
breaks accepting the payload now held in `val_buf`, or it retries
carrying the updated `ret`, CRC accumulator and `val_buf` contents. -/
inductive StepOut where
  | accept (valBuf : List Nat)
  | retry (ret : Int) (crc : Nat) (valBuf : List Nat)
deriving DecidableEq

/-- One iteration of the read retry loop (ft8756.c lines 186-214).
On a clear status byte the payload is copied to `val_buf` first
(line 194) and the CRC is validated afterwards (lines 195-206); a CRC
mismatch retries without touching `ret` (which still holds `spi_sync`'s
0) and without resetting the accumulator `crc`.  A set status byte
stores `-EIO` and retries. -/
def ft8756_read_step (val_size : Nat) (a : AttemptResult) (crc : Nat)
    (valBuf : List Nat) : StepOut :=
  match a with
  | .busErr e => .retry e crc valBuf
  | .resp rx =>
    if rx.getD 3 0 &&& 0xA0 = 0 then
      let valBuf2 := read_payload val_size rx
      if READ_CMD &&& DATA_CRC_EN ≠ 0 then
        let crc2 := crcBytes crc valBuf2
        let txlen := ft8756_read_txlen val_size
        let crc_read := rx.getD (txlen - 1) 0 * 256 + rx.getD (txlen - 2) 0
        if crc2 ≠ crc_read then .retry 0 crc2 valBuf2 else .accept valBuf2
      else .accept valBuf2
    else .retry (-5) crc valBuf

/-- The read retry loop threading `ret`, the CRC accumulator and the
caller's `val_buf` through up to three iterations. -/
def ft8756_read_loop (val_size : Nat) :
    List AttemptResult → Int → Nat → List Nat → Int × List Nat
  | [], ret, _crc, valBuf => (ret, valBuf)
  | a :: rest, _ret, crc, valBuf =>
    match ft8756_read_step val_size a crc valBuf with
    | .accept v => (0, v)
    | .retry r c v => ft8756_read_loop val_size rest r c v

/-- `ft8756_spi_read`: return value and final contents of the caller's
`val_buf`.  The CRC accumulator is initialized to `0xFFFF` once per call
(ft8756.c line 165), before the retry loop. -/
def ft8756_spi_read (val_size : Nat) (attempts : List AttemptResult)
    (valBuf : List Nat) : Int × List Nat :=
  ft8756_read_loop val_size (attempts.take FT8756_MAX_RETRIES) 0 0xFFFF valBuf

/-! ## Chip identity probe (`ft8756_check_chip_id`, ft8756.c lines 245-280) -/

/-- The regmap transport seen by the probe: `readReg addr len` yields the
`regmap_raw_read` return code together with the `len` bytes left in the
destination buffer; `writeReg reg val` yields the `regmap_write` return
code. -/
structure Bus where
  readReg : Nat → Nat → Int × List Nat
  writeReg : Nat → Nat → Int

/-- One transport-level operation performed by the probe, recorded in
order. -/
inductive BusOp where
  | reset
  | read (addr len : Nat)
  | write (addr val : Nat)
  | sleep (ms : Nat)
deriving DecidableEq

/-- Which branch of `ft8756_check_chip_id` declared success, or the error
code returned. -/
inductive ChipIdOutcome where
  | primary
  | secondary
  | fail (code : Int)
deriving DecidableEq

/-- `ft8756_check_chip_id` (ft8756.c lines 245-280) with the sequence of
transport operations it performs.  `u8` storage of the bytes read is
modeled by `% 256`; `(buf[0] << 8) | buf[1]` on byte values is
`buf0 * 256 + buf1`, and `cpu_to_be16` of a `u16` loaded from two raw
bytes on a little-endian host assembles those bytes big-endian the same
way.  Only the second primary read's return code feeds the `|| ret`
check (line 256): the first read's code is overwritten on line 254.
`-ENODEV` is -19. -/
def ft8756_check_chip_id (bus : Bus) : ChipIdOutcome × List BusOp :=
  let ops1 : List BusOp := [.reset, .read 0xA3 1, .read 0x9F 1]
  let r1 := bus.readReg 0xA3 1
  let r2 := bus.readReg 0x9F 1
  let chip_id := (r1.2.getD 0 0 % 256) * 256 + (r2.2.getD 0 0 % 256)
  if chip_id ≠ 0x5652 ∨ r2.1 ≠ 0 then
    let wret := bus.writeReg FT8756_CMD_START1 FT8756_CMD_START2
    if wret ≠ 0 then (.fail wret, ops1 ++ [.write 0x55 0xAA])
    else
      let r3 := bus.readReg FT8756_CMD_READ_ID 2
      let chip_id2 := (r3.2.getD 0 0 % 256) * 256 + (r3.2.getD 1 0 % 256)
      let ops := ops1 ++ [.write 0x55 0xAA, .sleep 15, .read 0x90 2]
      if chip_id2 ≠ 0x8756 ∨ r3.1 ≠ 0 then (.fail (-19), ops)
      else (.secondary, ops)
  else (.primary, ops1)

/-! ## Touch-report decoder (`ft8756_report`, ft8756.c lines 340-406) -/

/-- One decoded contact, as forwarded to the input-event sink
(`input_mt_slot` .. `input_report_abs`, ft8756.c lines 388-396).
`down` mirrors the `true` passed to `input_mt_report_slot_state`. -/
structure ContactSample where
  slot : Nat
  x : Nat
  y : Nat
  p : Nat
  area : Nat
  down : Bool
deriving DecidableEq

/-- The early-exit loop of ft8756.c lines 356-360.  Returns `true` when
`goto exit` is taken.  The loop body either `break`s (first byte is
neither sentinel) or takes `goto exit`, so no iteration beyond `i`
ever runs; the decoder enters it at `i = 0`. -/
def ft8756_early_exit (point : List Nat) (i : Nat) : Bool :=
  if i < 6 then
    if point.getD i 0 ≠ 0xEF ∧ point.getD i 0 ≠ 0xFF then false else true
  else false

/-- One iteration of the slot loop (ft8756.c lines 362-397), as a pure
function from the slot index to an optional emitted sample:
`continue` on `input_id >= 10`, on an event code other than `0x0`/`0x2`,
and on out-of-range coordinates; otherwise remap `area == 0` to 1,
clamp pressure to `TOUCH_MAX_PRESSURE` and remap pressure 0 to 1. -/
def decode_slot (max_x max_y : Nat) (point : List Nat) (i : Nat) :
    Option ContactSample :=
  let base := 6 * i
  let input_id := point.getD (base + 4) 0 >>> 4
  if TOUCH_MAX_FINGER_NUM ≤ input_id then none
  else if point.getD (base + 2) 0 >>> 6 = 0x0 ∨ point.getD (base + 2) 0 >>> 6 = 0x2 then
    let x := ((point.getD (base + 2) 0 &&& 0xF) <<< 8) + (point.getD (base + 3) 0 &&& 0xFF)
    let y := ((point.getD (base + 4) 0 &&& 0xF) <<< 8) + (point.getD (base + 5) 0 &&& 0xFF)
    if max_x < x ∨ max_y < y then none
    else
      let p := point.getD (base + 6) 0
      let area := point.getD (base + 7) 0 >>> 4
      let area2 := if area = 0 then 1 else area
      let p2 := if TOUCH_MAX_PRESSURE < p then TOUCH_MAX_PRESSURE else p
      let p3 := if p2 = 0 then 1 else p2
      some ⟨input_id, x, y, p3, area2, true⟩
  else none

/-- `ft8756_report` on an already-read 62-byte report buffer: the list of
emitted contact samples, paired with whether the frame-complete sync
(`input_mt_sync_frame` + `input_sync`, ft8756.c lines 400-402) was
emitted.  `goto exit` skips both the slot loop and the sync. -/
def ft8756_report (max_x max_y : Nat) (point : List Nat) :
    List ContactSample × Bool :=
  if ft8756_early_exit point 0 then ([], false)
  else
    ((List.range TOUCH_MAX_FINGER_NUM).filterMap (decode_slot max_x max_y point),
      true)

/-! ## Concrete fixtures used by the claim theorems and witnesses -/

/-- A received read buffer for `val_size = 1` (`txlen = 10`): clear status
byte at offset 3, payload byte `0x00` at offset 7, CRC trailer bytes 0;
the CRC-16 of `[0x00]` from seed `0xFFFF` is `0x0F87`, so the trailer
never matches. -/
def c1rx : List Nat := [0, 0, 0, 0, 0, 0, 0, 0x00, 0x00, 0x00]

/-- Same bytes as `c1rx`: a clear-status response whose CRC trailer does
not match its payload. -/
def c2rxA : List Nat := [0, 0, 0, 0, 0, 0, 0, 0x00, 0x00, 0x00]

/-- A clear-status response for `val_size = 1` whose CRC trailer
`(rx[9] << 8) + rx[8] = 0x3C14` equals the CRC-16 of its payload `[0x12]`
from a fresh `0xFFFF` seed. -/
def c2rxB : List Nat := [0, 0, 0, 0, 0, 0, 0, 0x12, 0x14, 0x3C]

/-- A clear-status, CRC-correct response for `val_size = 1` with payload
`[0x12]`. -/
def c3rx : List Nat := [0, 0, 0, 0, 0, 0, 0, 0x12, 0x14, 0x3C]

/-- A clear-status, CRC-correct response for `val_size = 1` with payload
`[0x12]`. -/
def c10rx : List Nat := [0, 0, 0, 0, 0, 0, 0, 0x12, 0x14, 0x3C]

/-- A clear-status response for `val_size = 1` whose CRC trailer is 0 and
therefore mismatches. -/
def c10rxBad : List Nat := [0, 0, 0, 0, 0, 0, 0, 0x12, 0x00, 0x00]

/-- A 62-byte report whose bytes are all `0xFF` (idle). -/
def c4pt : List Nat := List.replicate 62 0xFF

/-- A 62-byte report with sentinel byte 0 (`0xFF`) but valid contact data
in slot 0 (offsets 2..7) and non-sentinel bytes 1..5. -/
def c5ptA : List Nat :=
  0xFF :: 0x00 :: ([0x03, 0x12, 0x45, 0x67, 0x80, 0x30] ++ List.replicate 54 0)

/-- A 62-byte report with non-sentinel byte 0 but bytes 1..5 all `0xFF`. -/
def c5ptB : List Nat :=
  0x00 :: ([0xFF, 0xFF, 0xFF, 0xFF, 0xFF] ++ List.replicate 56 0)

/-- A 62-byte report whose slot-0 bytes at offsets 2..7 are the claim's
`[0x03, 0x12, 0x45, 0x67, 0x80, 0x30]` but whose first byte is the
sentinel `0xFF`. -/
def c6pt : List Nat :=
  0xFF :: 0x00 :: ([0x03, 0x12, 0x45, 0x67, 0x80, 0x30] ++ List.replicate 54 0)

/-- A 62-byte report whose slot-0 bytes at offsets 2..7 are the claim's
`[0x03, 0x12, 0x45, 0x67, 0x80, 0x30]` and whose first byte is 0. -/
def c6ptW : List Nat :=
  0x00 :: 0x00 :: ([0x03, 0x12, 0x45, 0x67, 0x80, 0x30] ++ List.replicate 54 0)

/-- The sample the spec expects for `c6ptW`'s slot 0. -/
def c6sample : ContactSample := ⟨4, 786, 1383, 128, 3, true⟩

/-- A 62-byte report whose slot 0 decodes to `c6sample` (used to witness
the range invariant). -/
def c7pt : List Nat :=
  0x00 :: 0x00 :: ([0x03, 0x12, 0x45, 0x67, 0x80, 0x30] ++ List.replicate 54 0)

/-- The sample slot 0 of `c7pt` decodes to. -/
def c7s : ContactSample := ⟨4, 786, 1383, 128, 3, true⟩

/-- A 62-byte report whose slot-1 pressure byte (offset 12) and area byte
(offset 13) are 0, exercising both zero remaps. -/
def c7ptB : List Nat := List.replicate 62 0

/-- The sample slot 1 of `c7ptB` decodes to: zero pressure and zero area
both remapped to 1. -/
def c7sB : ContactSample := ⟨0, 0, 0, 1, 1, true⟩

/-- A regmap oracle whose primary identity registers read `0x56`/`0x52`. -/
def busPrim : Bus where
  readReg := fun a _ =>
    if a = 0xA3 then (0, [0x56]) else if a = 0x9F then (0, [0x52]) else (0, [0, 0])
  writeReg := fun _ _ => 0

/-- A regmap oracle whose primary registers read 0 but whose secondary ID
register reads `0x87 0x56`. -/
def busSec : Bus where
  readReg := fun a _ => if a = 0x90 then (0, [0x87, 0x56]) else (0, [0x00])
  writeReg := fun _ _ => 0

/-- A regmap oracle all of whose reads return zero bytes: neither variant
matches. -/
def busUnk : Bus where
  readReg := fun _ len => if len = 1 then (0, [0]) else (0, [0, 0])
  writeReg := fun _ _ => 0

/-- The probe's operation trace when the primary identity matches. -/
def probeTrace1 : List BusOp := [.reset, .read 0xA3 1, .read 0x9F 1]

/-- The probe's operation trace when the fallback handshake write fails. -/
def probeTrace2 : List BusOp := probeTrace1 ++ [.write 0x55 0xAA]

/-- The probe's full fallback operation trace. -/
def probeTrace3 : List BusOp := probeTrace2 ++ [.sleep 15, .read 0x90 2]

/-! ## Helper lemmas -/

/-- The decoder drops the whole frame when the first report byte is a
sentinel. -/
theorem report_of_sentinel_byte0 (max_x max_y : Nat) (point : List Nat)
    (h0 : point.getD 0 0 = 0xEF ∨ point.getD 0 0 = 0xFF) :
    ft8756_report max_x max_y point = ([], false) := by
  simp only [List.getD_eq_getElem?_getD] at h0
  rcases h0 with h0 | h0 <;> simp [ft8756_report, ft8756_early_exit, h0]

/-- The decoder runs the full 10-slot loop and emits the sync when the
first report byte is not a sentinel. -/
theorem report_of_plain_byte0 (max_x max_y : Nat) (point : List Nat)
    (h1 : point.getD 0 0 ≠ 0xEF) (h2 : point.getD 0 0 ≠ 0xFF) :
    ft8756_report max_x max_y point =
      ((List.range 10).filterMap (decode_slot max_x max_y point), true) := by
  simp only [List.getD_eq_getElem?_getD] at h1 h2
  simp [ft8756_report, ft8756_early_exit, h1, h2, TOUCH_MAX_FINGER_NUM]

/-- Bytes of a byte-valued buffer read back through `getD` stay below
256. -/
theorem getD_lt_256 {l : List Nat} (h : ∀ b ∈ l, b < 256) (i : Nat) :
    l.getD i 0 < 256 := by
  rcases Nat.lt_or_ge i l.length with hi | hi
  · rw [List.getD_eq_getElem l 0 hi]
    exact h _ (List.getElem_mem hi)
  · rw [List.getD_eq_default l 0 hi]
    omega

/-- Pressure and area facts about any sample produced by `decode_slot`:
pressure is clamped and remapped into `1..255`, a zero area nibble is
remapped to 1, and a nonzero area nibble is passed through. -/
theorem decode_slot_p_area {max_x max_y : Nat} {point : List Nat} {i : Nat}
    {s : ContactSample} (h : decode_slot max_x max_y point i = some s) :
    (1 ≤ s.p ∧ s.p ≤ 255) ∧
    (point.getD (6 * i + 6) 0 = 0 → s.p = 1) ∧
    (255 < point.getD (6 * i + 6) 0 → s.p = 255) ∧
    (point.getD (6 * i + 7) 0 >>> 4 = 0 → s.area = 1) ∧
    (point.getD (6 * i + 7) 0 >>> 4 ≠ 0 →
      s.area = point.getD (6 * i + 7) 0 >>> 4) ∧
    1 ≤ s.area := by
  unfold decode_slot at h
  simp only [TOUCH_MAX_FINGER_NUM, TOUCH_MAX_PRESSURE] at h
  split_ifs at h <;>
    first
      | exact Option.noConfusion h
      | (injection h with h
         subst h
         refine ⟨⟨?_, ?_⟩, ?_, ?_, ?_, ?_, ?_⟩ <;> simp_all <;> omega)

/-! ## Claim theorems -/

/-- Claim C1 (code bug).  On a read whose three attempts all have a
successful bus exchange and a clear status byte but a CRC mismatch, the
driver returns 0 — success — because the CRC-mismatch branch of
ft8756.c lines 202-206 never stores an error in `ret`; and the
unvalidated payload has already been copied to the caller's buffer by
the `memcpy` of line 194, which runs before the CRC check.  The first
conjunct evaluates that run: result `(0, [0x00])` instead of a failure
with the buffer `[0xAB]` untouched.  The second conjunct shows a run
whose outcome is a failure (`-5`) yet whose caller buffer was still
overwritten by the first attempt's CRC-mismatching payload.  The last
two conjuncts check that `c1rx` really is a clear-status response whose
CRC trailer mismatches its payload. -/
theorem c1_crc_exhaustion_reports_success :
    ft8756_spi_read 1 [.resp c1rx, .resp c1rx, .resp c1rx] [0xAB] = (0, [0x00]) ∧
    ft8756_spi_read 1 [.resp c1rx, .busErr (-5), .busErr (-5)] [0xAB] =
      (-5, [0x00]) ∧
    crcBytes 0xFFFF (read_payload 1 c1rx) ≠ c1rx.getD 9 0 * 256 + c1rx.getD 8 0 ∧
    c1rx.getD 3 0 &&& 0xA0 = 0 := by
  decide

/-- Claim C2 (code bug).  The CRC accumulator is initialized to `0xFFFF`
once per call (ft8756.c line 165), outside the retry loop, so a retried
attempt's CRC computation continues from the previous attempt's final
accumulator.  Here attempt 1 (`c2rxA`) has a clear status and a CRC
mismatch; attempt 2 (`c2rxB`) is a response whose trailer equals the
CRC-16 of its payload from a fresh `0xFFFF` seed (first conjunct) and
has a clear status (second conjunct), so per the claim it must be
accepted — yet the call rejects it and ends on attempt 3's bus error
(third conjunct).  The fourth conjunct shows the rejecting step itself:
fed the carried-over accumulator, the step retries instead of
accepting. -/
theorem c2_crc_accumulator_carried_across_attempts :
    crcBytes 0xFFFF (read_payload 1 c2rxB) =
      c2rxB.getD 9 0 * 256 + c2rxB.getD 8 0 ∧
    c2rxB.getD 3 0 &&& 0xA0 = 0 ∧
    ft8756_spi_read 1 [.resp c2rxA, .resp c2rxB, .busErr (-71)] [0xAB] =
      (-71, [0x12]) ∧
    ft8756_read_step 1 (.resp c2rxB) (crcBytes 0xFFFF (read_payload 1 c2rxA))
        [0x00] =
      .retry 0
        (crcBytes (crcBytes 0xFFFF (read_payload 1 c2rxA)) (read_payload 1 c2rxB))
        (read_payload 1 c2rxB) := by
  decide

/-- Claim C4.  A 62-byte report whose first 6 bytes are each `0xEF` or
`0xFF` yields zero contact samples. -/
theorem c4_idle_frame_no_samples (max_x max_y : Nat) (point : List Nat)
    (_hlen : point.length = POINT_DATA_LEN)
    (h : ∀ i < 6, point.getD i 0 = 0xEF ∨ point.getD i 0 = 0xFF) :
    (ft8756_report max_x max_y point).1 = [] := by
  rw [report_of_sentinel_byte0 max_x max_y point (h 0 (by omega))]

/-- Witness for C4 at the all-`0xFF` report. -/
theorem c4_idle_frame_no_samples_witness :
    (ft8756_report 1079 2399 c4pt).1 = [] :=
  c4_idle_frame_no_samples 1079 2399 c4pt (by decide) (by decide)

/-- Claim C5.  The decoder's idle early exit is decided by byte 0 alone:
a sentinel first byte returns immediately with no samples and no
frame-complete sync, whatever bytes 1..5 hold; a non-sentinel first
byte decodes all 10 slots and emits the sync, even when bytes 1..5 are
all sentinels. -/
theorem c5_idle_exit_decided_by_byte0 (max_x max_y : Nat) (point : List Nat) :
    ((point.getD 0 0 = 0xEF ∨ point.getD 0 0 = 0xFF) →
      ft8756_report max_x max_y point = ([], false)) ∧
    (point.getD 0 0 ≠ 0xEF → point.getD 0 0 ≠ 0xFF →
      ft8756_report max_x max_y point =
        ((List.range 10).filterMap (decode_slot max_x max_y point), true)) :=
  ⟨report_of_sentinel_byte0 max_x max_y point,
    report_of_plain_byte0 max_x max_y point⟩

/-- Witness for C5: `c5ptA` has a sentinel byte 0 with valid contact data
in slot 0 and is dropped whole; `c5ptB` has a non-sentinel byte 0 with
bytes 1..5 all `0xFF` and is fully decoded with a sync. -/
theorem c5_idle_exit_decided_by_byte0_witness :
    ft8756_report 1079 2399 c5ptA = ([], false) ∧
    ft8756_report 1079 2399 c5ptB =
      ((List.range 10).filterMap (decode_slot 1079 2399 c5ptB), true) :=
  ⟨(c5_idle_exit_decided_by_byte0 1079 2399 c5ptA).1 (Or.inr (by decide)),
    (c5_idle_exit_decided_by_byte0 1079 2399 c5ptB).2 (by decide) (by decide)⟩

/-- Counterexample for C6 as stated: `c6pt` carries exactly the claimed
slot-0 bytes `[0x03, 0x12, 0x45, 0x67, 0x80, 0x30]` at offsets 2..7 and
the panel maximum (1079, 2399) covers (786, 1383), yet the decoder
emits nothing because its first byte is the sentinel `0xFF`. -/
theorem c6_counterexample :
    c6pt.length = 62 ∧
    c6pt.getD 2 0 = 0x03 ∧ c6pt.getD 3 0 = 0x12 ∧ c6pt.getD 4 0 = 0x45 ∧
    c6pt.getD 5 0 = 0x67 ∧ c6pt.getD 6 0 = 0x80 ∧ c6pt.getD 7 0 = 0x30 ∧
    ft8756_report 1079 2399 c6pt = ([], false) := by
  decide

/-- Claim C6 as amended: additionally requiring the report's first byte
to be neither sentinel (`0xEF`/`0xFF`), slot 0 decodes to the sample
`{slot := 4, x := 786, y := 1383, pressure := 128, area := 3, down}` and
that sample is emitted. -/
theorem c6_slot0_decode_example (max_x max_y : Nat) (point : List Nat)
    (h0 : point.getD 0 0 ≠ 0xEF) (h0' : point.getD 0 0 ≠ 0xFF)
    (h2 : point.getD 2 0 = 0x03) (h3 : point.getD 3 0 = 0x12)
    (h4 : point.getD 4 0 = 0x45) (h5 : point.getD 5 0 = 0x67)
    (h6 : point.getD 6 0 = 0x80) (h7 : point.getD 7 0 = 0x30)
    (hx : 786 ≤ max_x) (hy : 1383 ≤ max_y) :
    decode_slot max_x max_y point 0 = some c6sample ∧
    c6sample ∈ (ft8756_report max_x max_y point).1 := by
  have hdec : decode_slot max_x max_y point 0 = some c6sample := by
    unfold decode_slot
    rw [show 6 * 0 = 0 from rfl]
    simp only [Nat.zero_add, h2, h3, h4, h5, h6, h7,
      show (69 : Nat) >>> 4 = 4 from rfl,
      show (3 : Nat) >>> 6 = 0 from rfl,
      show ((3 : Nat) &&& 15) <<< 8 = 768 from rfl,
      show ((18 : Nat) &&& 255) = 18 from rfl,
      show ((69 : Nat) &&& 15) <<< 8 = 1280 from rfl,
      show ((103 : Nat) &&& 255) = 103 from rfl,
      show (48 : Nat) >>> 4 = 3 from rfl,
      TOUCH_MAX_FINGER_NUM, TOUCH_MAX_PRESSURE]
    norm_num [c6sample]
    omega
  refine ⟨hdec, ?_⟩
  rw [report_of_plain_byte0 max_x max_y point h0 h0']
  exact List.mem_filterMap.mpr ⟨0, by decide, hdec⟩

/-- Witness for the amended C6 at the concrete report `c6ptW`. -/
theorem c6_slot0_decode_example_witness :
    decode_slot 1079 2399 c6ptW 0 = some c6sample ∧
    c6sample ∈ (ft8756_report 1079 2399 c6ptW).1 :=
  c6_slot0_decode_example 1079 2399 c6ptW (by decide) (by decide) (by decide)
    (by decide) (by decide) (by decide) (by decide) (by decide) (by omega)
    (by omega)

/-- Claim C7.  Every emitted sample of a byte-valued report has pressure
in `1..255` and area in `1..15`; moreover a zero raw pressure byte is
remapped to 1, a raw pressure above 255 is clamped to 255 (vacuous on a
byte-valued buffer, but the clamp is in the code), and a zero raw area
nibble is remapped to 1. -/
theorem c7_pressure_area_in_range :
    (∀ (max_x max_y : Nat) (point : List Nat) (s : ContactSample),
        (∀ b ∈ point, b < 256) → s ∈ (ft8756_report max_x max_y point).1 →
        1 ≤ s.p ∧ s.p ≤ 255 ∧ 1 ≤ s.area ∧ s.area ≤ 15) ∧
    (∀ (max_x max_y i : Nat) (point : List Nat) (s : ContactSample),
        decode_slot max_x max_y point i = some s →
        (point.getD (6 * i + 6) 0 = 0 → s.p = 1) ∧
        (255 < point.getD (6 * i + 6) 0 → s.p = 255) ∧
        (point.getD (6 * i + 7) 0 >>> 4 = 0 → s.area = 1)) := by
  constructor
  · intro mx my point s hb hs
    unfold ft8756_report at hs
    by_cases he : ft8756_early_exit point 0
    · rw [if_pos he] at hs
      simp at hs
    · rw [if_neg he] at hs
      obtain ⟨i, _hi, hdec⟩ := List.mem_filterMap.mp hs
      have hpa := decode_slot_p_area hdec
      have hlt : point.getD (6 * i + 7) 0 < 256 := getD_lt_256 hb _
      have hdiv : point.getD (6 * i + 7) 0 >>> 4 = point.getD (6 * i + 7) 0 / 16 := by
        rw [Nat.shiftRight_eq_div_pow]
      refine ⟨hpa.1.1, hpa.1.2, hpa.2.2.2.2.2, ?_⟩
      rcases Nat.eq_zero_or_pos (point.getD (6 * i + 7) 0 >>> 4) with hz | hz
      · rw [hpa.2.2.2.1 hz]
        omega
      · rw [hpa.2.2.2.2.1 (by omega)]
        omega
  · intro mx my i point s hdec
    have hpa := decode_slot_p_area hdec
    exact ⟨hpa.2.1, hpa.2.2.1, hpa.2.2.2.1⟩

/-- Witness for C7: `c7pt` emits the in-range sample `(4, 786, 1383, 128, 3)`,
and slot 1 of the all-zero report `c7ptB` exercises both zero remaps. -/
theorem c7_pressure_area_in_range_witness :
    (1 ≤ c7s.p ∧ c7s.p ≤ 255 ∧ 1 ≤ c7s.area ∧ c7s.area ≤ 15) ∧
    ((c7ptB.getD (6 * 1 + 6) 0 = 0 → c7sB.p = 1) ∧
      (255 < c7ptB.getD (6 * 1 + 6) 0 → c7sB.p = 255) ∧
      (c7ptB.getD (6 * 1 + 7) 0 >>> 4 = 0 → c7sB.area = 1)) :=
  ⟨c7_pressure_area_in_range.1 1079 2399 c7pt c7s (by decide) (by decide),
    c7_pressure_area_in_range.2 1079 2399 1 c7ptB c7sB (by decide)⟩

/-- Claim C3.  Both transport loops perform at most `FT8756_MAX_RETRIES`
(3) attempts — their outcome depends only on the first 3 per-attempt bus
results; an attempt is retried on a bus error or on a status byte with a
bit of mask `0xA0` set (for writes and reads alike); a bus stub that
fails its first 2 attempts and answers with a clear status (and, for the
read, a fresh-CRC-correct trailer) on the 3rd makes the exchange
succeed; and three bus errors exhaust the budget, returning the last
(nonzero) bus error code. -/
theorem c3_bounded_retry :
    (∀ a1 a2 : List AttemptResult, a1.take 3 = a2.take 3 →
        ft8756_spi_write_ret a1 = ft8756_spi_write_ret a2) ∧
    (∀ (vs : Nat) (a1 a2 : List AttemptResult) (vb : List Nat),
        a1.take 3 = a2.take 3 →
        ft8756_spi_read vs a1 vb = ft8756_spi_read vs a2 vb) ∧
    (∀ (rest : List AttemptResult) (r e : Int),
        ft8756_write_loop (.busErr e :: rest) r = ft8756_write_loop rest e) ∧
    (∀ (rest : List AttemptResult) (r : Int) (rx : List Nat),
        rx.getD 3 0 &&& 0xA0 ≠ 0 →
        ft8756_write_loop (.resp rx :: rest) r = ft8756_write_loop rest (-5)) ∧
    (∀ (vs : Nat) (e : Int) (crc : Nat) (vb : List Nat),
        ft8756_read_step vs (.busErr e) crc vb = .retry e crc vb) ∧
    (∀ (vs crc : Nat) (vb rx : List Nat), rx.getD 3 0 &&& 0xA0 ≠ 0 →
        ft8756_read_step vs (.resp rx) crc vb = .retry (-5) crc vb) ∧
    (∀ (e1 e2 : Int) (rx : List Nat), rx.getD 3 0 &&& 0xA0 = 0 →
        ft8756_spi_write_ret [.busErr e1, .busErr e2, .resp rx] = 0) ∧
    (∀ (vs : Nat) (e1 e2 : Int) (rx vb : List Nat),
        rx.getD 3 0 &&& 0xA0 = 0 →
        crcBytes 0xFFFF (read_payload vs rx) =
          rx.getD (ft8756_read_txlen vs - 1) 0 * 256 +
            rx.getD (ft8756_read_txlen vs - 2) 0 →
        ft8756_spi_read vs [.busErr e1, .busErr e2, .resp rx] vb =
          (0, read_payload vs rx)) ∧
    (∀ e1 e2 e3 : Int, e3 ≠ 0 →
        ft8756_spi_write_ret [.busErr e1, .busErr e2, .busErr e3] = e3 ∧
        ft8756_spi_write_ret [.busErr e1, .busErr e2, .busErr e3] ≠ 0) ∧
    (∀ (vs : Nat) (e1 e2 e3 : Int) (vb : List Nat), e3 ≠ 0 →
        ft8756_spi_read vs [.busErr e1, .busErr e2, .busErr e3] vb = (e3, vb) ∧
        (ft8756_spi_read vs [.busErr e1, .busErr e2, .busErr e3] vb).1 ≠ 0) := by
  refine ⟨?_, ?_, ?_, ?_, ?_, ?_, ?_, ?_, ?_, ?_⟩
  · intro a1 a2 h
    simp only [ft8756_spi_write_ret, FT8756_MAX_RETRIES]
    rw [h]
  · intro vs a1 a2 vb h
    simp only [ft8756_spi_read, FT8756_MAX_RETRIES]
    rw [h]
  · intro rest r e
    rfl
  · intro rest r rx h
    simp only [List.getD_eq_getElem?_getD] at h
    simp [ft8756_write_loop, h]
  · intro vs e crc vb
    rfl
  · intro vs crc vb rx h
    simp only [List.getD_eq_getElem?_getD] at h
    simp [ft8756_read_step, h]
  · intro e1 e2 rx h
    simp only [List.getD_eq_getElem?_getD] at h
    simp [ft8756_spi_write_ret, FT8756_MAX_RETRIES, ft8756_write_loop, h]
  · intro vs e1 e2 rx vb h hcrc
    simp only [List.getD_eq_getElem?_getD] at h hcrc
    simp [ft8756_spi_read, FT8756_MAX_RETRIES, ft8756_read_loop,
      ft8756_read_step, h, READ_CMD, DATA_CRC_EN, hcrc]
  · intro e1 e2 e3 h
    exact ⟨rfl, by simpa [ft8756_spi_write_ret, FT8756_MAX_RETRIES,
      ft8756_write_loop] using h⟩
  · intro vs e1 e2 e3 vb h
    refine ⟨rfl, ?_⟩
    simpa [ft8756_spi_read, FT8756_MAX_RETRIES, ft8756_read_loop,
      ft8756_read_step] using h

/-- Witness for C3 at concrete attempt lists. -/
theorem c3_bounded_retry_witness :
    ft8756_spi_write_ret [.busErr (-5), .busErr (-5), .busErr (-7), .resp [0, 0, 0, 0]] =
      ft8756_spi_write_ret [.busErr (-5), .busErr (-5), .busErr (-7)] ∧
    ft8756_spi_read 1 [.busErr (-5), .busErr (-5), .busErr (-7), .resp c3rx] [0xAB] =
      ft8756_spi_read 1 [.busErr (-5), .busErr (-5), .busErr (-7)] [0xAB] ∧
    ft8756_write_loop [.busErr (-5)] 0 = ft8756_write_loop [] (-5) ∧
    ft8756_write_loop [.resp [0, 0, 0, 0x80]] 0 = ft8756_write_loop [] (-5) ∧
    ft8756_read_step 1 (.busErr (-5)) 0xFFFF [0xAB] = .retry (-5) 0xFFFF [0xAB] ∧
    ft8756_read_step 1 (.resp [0, 0, 0, 0x80]) 0xFFFF [0xAB] =
      .retry (-5) 0xFFFF [0xAB] ∧
    ft8756_spi_write_ret [.busErr (-5), .busErr (-5), .resp [0, 0, 0, 0]] = 0 ∧
    ft8756_spi_read 1 [.busErr (-5), .busErr (-5), .resp c3rx] [0xAB] =
      (0, read_payload 1 c3rx) ∧
    (ft8756_spi_write_ret [.busErr (-5), .busErr (-5), .busErr (-7)] = -7 ∧
      ft8756_spi_write_ret [.busErr (-5), .busErr (-5), .busErr (-7)] ≠ 0) ∧
    (ft8756_spi_read 1 [.busErr (-5), .busErr (-5), .busErr (-7)] [0xAB] =
        (-7, [0xAB]) ∧
      (ft8756_spi_read 1 [.busErr (-5), .busErr (-5), .busErr (-7)] [0xAB]).1 ≠ 0) := by
  refine ⟨?_, ?_, ?_, ?_, ?_, ?_, ?_, ?_, ?_, ?_⟩
  · exact c3_bounded_retry.1 _ _ (by decide)
  · exact c3_bounded_retry.2.1 1 _ _ [0xAB] (by decide)
  · exact c3_bounded_retry.2.2.1 [] 0 (-5)
  · exact c3_bounded_retry.2.2.2.1 [] 0 [0, 0, 0, 0x80] (by decide)
  · exact c3_bounded_retry.2.2.2.2.1 1 (-5) 0xFFFF [0xAB]
  · exact c3_bounded_retry.2.2.2.2.2.1 1 0xFFFF [0xAB] [0, 0, 0, 0x80] (by decide)
  · exact c3_bounded_retry.2.2.2.2.2.2.1 (-5) (-5) [0, 0, 0, 0] (by decide)
  · exact c3_bounded_retry.2.2.2.2.2.2.2.1 1 (-5) (-5) c3rx [0xAB] (by decide)
      (by decide)
  · exact c3_bounded_retry.2.2.2.2.2.2.2.2.1 (-5) (-5) (-7) (by decide)
  · exact c3_bounded_retry.2.2.2.2.2.2.2.2.2 1 (-5) (-5) (-7) [0xAB] (by decide)

/-- Claim C8.  For a write of at least one byte (and a length field that
fits the 16-bit header slot), the encoded frame is exactly
`[addr, 0x00, len_hi, len_lo]` with the length field `payload_len - 1`
in big-endian order, followed — when that length is positive — by 3
dummy bytes and `payload[1:]`, and nothing else (no CRC). -/
theorem c8_write_frame_layout (data : List Nat) (h1 : 1 ≤ data.length)
    (h2 : data.length - 1 < 65536) :
    ft8756_spi_write_txBuf data =
      [data.getD 0 0, 0x00, (data.length - 1) / 256, (data.length - 1) % 256] ++
        (if 0 < data.length - 1 then [0, 0, 0] ++ data.drop 1 else []) := by
  unfold ft8756_spi_write_txBuf
  have hd : (data.length + 0xFFFFFFFF) % 0x100000000 = data.length - 1 := by
    omega
  have hhi : (data.length - 1) >>> 8 &&& 0xFF = (data.length - 1) / 256 := by
    rw [Nat.shiftRight_eq_div_pow,
      show (0xFF : Nat) = 2 ^ 8 - 1 from rfl,
      Nat.and_pow_two_sub_one_eq_mod,
      show (2 : Nat) ^ 8 = 256 from rfl]
    exact Nat.mod_eq_of_lt (by omega)
  have hlo : (data.length - 1) &&& 0xFF = (data.length - 1) % 256 := by
    rw [show (0xFF : Nat) = 2 ^ 8 - 1 from rfl, Nat.and_pow_two_sub_one_eq_mod,
      show (2 : Nat) ^ 8 = 256 from rfl]
  simp only [hd, hhi, hlo, WRITE_CMD]

/-- Witness for C8 at the 2-byte write `[0xA5, 0x03]` (register `0xA5`,
value `0x03`). -/
theorem c8_write_frame_layout_witness :
    ft8756_spi_write_txBuf [0xA5, 0x03] =
      [[0xA5, 0x03].getD 0 0, 0x00, ([0xA5, 0x03].length - 1) / 256,
          ([0xA5, 0x03].length - 1) % 256] ++
        (if 0 < [0xA5, 0x03].length - 1 then [0, 0, 0] ++ [0xA5, 0x03].drop 1
          else []) :=
  c8_write_frame_layout [0xA5, 0x03] (by decide) (by decide)

/-- Claim C10.  Every read frame carries the CRC-enable bit: its command
byte is `0x80 ||| 0x20`; the exchanged length is always
`4 + 3 + val_size + 2`; and on any attempt whose status byte is clear,
acceptance is exactly CRC validation succeeding — a mismatching attempt
is retried.  No CRC-disabled read exists in the interface. -/
theorem c10_crc_always_enabled :
    (∀ reg vs : Nat, (ft8756_read_txBuf reg vs).getD 1 0 = 0x80 ||| 0x20) ∧
    (∀ vs : Nat, ft8756_read_txlen vs = 4 + 3 + vs + 2) ∧
    (∀ (vs crc : Nat) (vb rx : List Nat), rx.getD 3 0 &&& 0xA0 = 0 →
        (ft8756_read_step vs (.resp rx) crc vb = .accept (read_payload vs rx) ↔
          crcBytes crc (read_payload vs rx) =
            rx.getD (ft8756_read_txlen vs - 1) 0 * 256 +
              rx.getD (ft8756_read_txlen vs - 2) 0)) ∧
    (∀ (vs crc : Nat) (vb rx : List Nat), rx.getD 3 0 &&& 0xA0 = 0 →
        crcBytes crc (read_payload vs rx) ≠
          rx.getD (ft8756_read_txlen vs - 1) 0 * 256 +
            rx.getD (ft8756_read_txlen vs - 2) 0 →
        ft8756_read_step vs (.resp rx) crc vb =
          .retry 0 (crcBytes crc (read_payload vs rx)) (read_payload vs rx)) := by
  refine ⟨fun reg vs => rfl, fun vs => rfl, ?_, ?_⟩
  · intro vs crc vb rx h
    simp only [List.getD_eq_getElem?_getD] at h ⊢
    by_cases hc : crcBytes crc (read_payload vs rx) =
        rx[ft8756_read_txlen vs - 1]?.getD 0 * 256 +
          rx[ft8756_read_txlen vs - 2]?.getD 0
    · simp [ft8756_read_step, h, READ_CMD, DATA_CRC_EN, hc]
    · simp [ft8756_read_step, h, READ_CMD, DATA_CRC_EN, hc]
  · intro vs crc vb rx h hc
    simp only [List.getD_eq_getElem?_getD] at h hc ⊢
    simp [ft8756_read_step, h, READ_CMD, DATA_CRC_EN, hc]

/-- Witness for C10: the CRC-correct response `c10rx` is accepted, the
CRC-mismatching `c10rxBad` is retried. -/
theorem c10_crc_always_enabled_witness :
    (ft8756_read_txBuf 0x01 62).getD 1 0 = 0x80 ||| 0x20 ∧
    ft8756_read_txlen 62 = 4 + 3 + 62 + 2 ∧
    ft8756_read_step 1 (.resp c10rx) 0xFFFF [0xAB] =
      .accept (read_payload 1 c10rx) ∧
    ft8756_read_step 1 (.resp c10rxBad) 0xFFFF [0xAB] =
      .retry 0 (crcBytes 0xFFFF (read_payload 1 c10rxBad))
        (read_payload 1 c10rxBad) := by
  refine ⟨c10_crc_always_enabled.1 0x01 62, c10_crc_always_enabled.2.1 62, ?_, ?_⟩
  · exact (c10_crc_always_enabled.2.2.1 1 0xFFFF [0xAB] c10rx (by decide)).mpr
      (by decide)
  · exact c10_crc_always_enabled.2.2.2 1 0xFFFF [0xAB] c10rxBad (by decide)
      (by decide)

/-- Claim C9.  The probe's transport trace is always one of the three
prefixes: reset + two primary identity reads; plus the single
`0xAA → 0x55` handshake write; plus the 15 ms settle and the 2-byte read
of register `0x90` — no operation is ever repeated (no probe-level
retries).  With successful primary reads, the probe declares the primary
variant iff the assembled 16-bit value is `0x5652`; otherwise, with a
successful handshake and secondary read, it declares the secondary
variant iff the big-endian 2-byte ID is `0x8756` and fails with
`-ENODEV` (-19) if not. -/
theorem c9_identity_probe :
    (∀ bus : Bus,
        (ft8756_check_chip_id bus).2 = probeTrace1 ∨
        (ft8756_check_chip_id bus).2 = probeTrace2 ∨
        (ft8756_check_chip_id bus).2 = probeTrace3) ∧
    (∀ (bus : Bus) (a b : Nat),
        bus.readReg 0xA3 1 = (0, [a]) → bus.readReg 0x9F 1 = (0, [b]) →
        a < 256 → b < 256 →
        ((ft8756_check_chip_id bus).1 = .primary ↔ a * 256 + b = 0x5652)) ∧
    (∀ (bus : Bus) (a b c d : Nat),
        bus.readReg 0xA3 1 = (0, [a]) → bus.readReg 0x9F 1 = (0, [b]) →
        a < 256 → b < 256 → a * 256 + b ≠ 0x5652 →
        bus.writeReg FT8756_CMD_START1 FT8756_CMD_START2 = 0 →
        bus.readReg FT8756_CMD_READ_ID 2 = (0, [c, d]) → c < 256 → d < 256 →
        (((ft8756_check_chip_id bus).1 = .secondary ↔ c * 256 + d = 0x8756) ∧
          (c * 256 + d ≠ 0x8756 →
            (ft8756_check_chip_id bus).1 = .fail (-19)))) := by
  refine ⟨?_, ?_, ?_⟩
  · intro bus
    unfold ft8756_check_chip_id
    dsimp only
    split_ifs <;> simp [probeTrace1, probeTrace2, probeTrace3]
  · intro bus a b h1 h2 ha hb
    unfold ft8756_check_chip_id
    simp only [h1, h2, List.getD_cons_zero, Nat.mod_eq_of_lt ha,
      Nat.mod_eq_of_lt hb]
    by_cases hid : a * 256 + b = 0x5652
    · simp [hid]
    · simp only [hid, ne_eq, not_false_eq_true, true_or, if_true]
      split_ifs <;> simp
  · intro bus a b c d h1 h2 ha hb hne hw h3 hc hd
    simp only [FT8756_CMD_START1, FT8756_CMD_START2, FT8756_CMD_READ_ID] at hw h3
    unfold ft8756_check_chip_id
    simp only [FT8756_CMD_START1, FT8756_CMD_START2, FT8756_CMD_READ_ID, h1, h2,
      h3, hw, List.getD_cons_zero, List.getD_cons_succ, Nat.mod_eq_of_lt ha,
      Nat.mod_eq_of_lt hb, Nat.mod_eq_of_lt hc, Nat.mod_eq_of_lt hd]
    rw [if_pos (Or.inl hne), if_neg (by simp)]
    by_cases hid2 : c * 256 + d = 0x8756
    · simp [hid2]
    · simp [hid2]

/-- Witness for C9: `busPrim` reads `0x56 0x52` and is declared primary;
`busSec` fails the primary check, completes the handshake and reads
`0x87 0x56`, declared secondary; `busUnk` reads zeros everywhere and
fails with `-ENODEV`. -/
theorem c9_identity_probe_witness :
    (ft8756_check_chip_id busPrim).1 = .primary ∧
    (ft8756_check_chip_id busSec).1 = .secondary ∧
    (ft8756_check_chip_id busUnk).1 = .fail (-19) := by
  refine ⟨?_, ?_, ?_⟩
  · exact (c9_identity_probe.2.1 busPrim 0x56 0x52 (by decide) (by decide)
      (by decide) (by decide)).mpr (by decide)
  · exact ((c9_identity_probe.2.2 busSec 0 0 0x87 0x56 (by decide) (by decide)
      (by decide) (by decide) (by decide) (by decide) (by decide) (by decide)
      (by decide)).1).mpr (by decide)
  · exact (c9_identity_probe.2.2 busUnk 0 0 0 0 (by decide) (by decide)
      (by decide) (by decide) (by decide) (by decide) (by decide) (by decide)
      (by decide)).2 (by decide)

end FT8756
